import Mathlib

/- Formal model of the booking/payment/reminder core of the
`mumsy-braiding-studio` Firebase functions, shallowly embedded from
`src/functions/index.js` (the named primary source; the files under
`src/unnamed/` are near-duplicate variants of the same handlers).

Modelling conventions:
- Firestore is an association list `Store := List (String × Booking)`;
  `db.runTransaction` is modelled by applying the buffered `tx.update`
  only when the transaction callback completes without throwing, and
  discarding it when the callback throws (Firestore aborts the
  transaction in that case).
- The Twilio client is an oracle `attempt : Nat → Except String Unit`
  giving the outcome of the n-th outbound attempt of one send call.
- `crypto.createHmac("sha512", secret).update(raw).digest("hex")` is an
  opaque pure function `hmac : String → String → String`; the handlers
  only ever compare its output for string equality.
- JavaScript truthiness on the request fields is modelled explicitly:
  a string field is falsy when absent or empty, a numeric field when
  absent or zero.
-/

namespace Mumsy

/- ===================== Validator (src/functions/index.js 55-66) ===================== -/

/-- The digit-stripping pass of `validatePhone`: JS `phone.replace(/\D/g, "")`. -/
def digitsOf (cs : List Char) : List Char := cs.filter Char.isDigit

/-- The trunk-prefix rewrite of `validatePhone`:
JS `if (p.startsWith("0")) p = "27" + p.slice(1)`. -/
def trunkReplace (p : List Char) : List Char :=
  if p.head? = some '0' then '2' :: '7' :: p.tail else p

/-- The final shape test of `validatePhone`: JS `/^\d{11,15}$/.test(p)`
(only digits, and between 11 and 15 of them). -/
def phoneShapeOk (p : List Char) : Bool :=
  p.all Char.isDigit && decide (11 ≤ p.length) && decide (p.length ≤ 15)

/-- `validatePhone` from `src/functions/index.js` lines 55-60: strip
non-digits, rewrite a leading local `0` to the country code `27`, require
11-15 digits, and return the result prefixed with `+`; otherwise throw
`Invalid phone number`. -/
def validatePhone (phone : String) : Except String String :=
  let p := trunkReplace (digitsOf phone.data)
  if phoneShapeOk p then .ok ("+" ++ String.mk p) else .error "Invalid phone number"

/-- Spec wording of the trunk-prefix step: "if the remaining digits start with
a local trunk prefix 0, replace it with the country code 27". -/
def specTrunk : List Char → List Char
  | '0' :: rest => '2' :: '7' :: rest
  | other => other

/-- Modelled from the spec's words in section 4.1 (for comparison against the
code's `validatePhone`): "strips all non-digit characters; if the remaining
digits start with a local trunk prefix 0, replace it with the country code 27;
fails with InvalidPhone unless the result has 11-15 digits; prepends +". -/
def specNormalizePhone (raw : String) : Except String String :=
  let ds := raw.data.filter Char.isDigit
  let cc := specTrunk ds
  if 11 ≤ cc.length ∧ cc.length ≤ 15 then .ok ("+" ++ String.mk cc)
  else .error "Invalid phone number"

/-- Character class `[^\s@]` of the email regex. -/
def noWsNoAt (cs : List Char) : Bool := cs.all fun c => !c.isWhitespace && !(c = '@')

/-- Whether a domain part decomposes as `[^\s@]+ "." [^\s@]+`, i.e. contains a
dot that is neither its first nor its last character. -/
def hasInnerDot (cs : List Char) : Bool := ((cs.drop 1).dropLast).contains '.'

/-- `validateEmail` from `src/functions/index.js` lines 62-66: the regex
`^[^\s@]+@[^\s@]+\.[^\s@]+$` accepts exactly the strings of the form
`a@b.c` with `a` the (necessarily `@`-free) part before the first `@`,
and `b.c` a decomposition of the remainder with `b`, `c` nonempty; no
whitespace or further `@` anywhere. -/
def validateEmail (email : String) : Except String String :=
  let cs := email.data
  let localPart := cs.takeWhile fun c => !(c = '@')
  let rest := cs.dropWhile fun c => !(c = '@')
  match rest with
  | '@' :: domain =>
    if !localPart.isEmpty && noWsNoAt localPart && !domain.isEmpty &&
        noWsNoAt domain && hasInnerDot domain
    then .ok email else .error "Invalid email address"
  | _ => .error "Invalid email address"

/- ===================== Notifier retry (src/functions/index.js 19-53) ===================== -/

/-- The retry loop of `sendWithRetry`, embedded over an oracle
`attempt : Nat → Except ε α` giving the outcome of the i-th call to `sendFn`.
`i` is the JS loop counter (starting at 1), `left` the number of attempts
still allowed after the current one (so the loop body for `attempts = 3`
runs as `go 1 2`, visiting `i = 1, 2, 3`). Returns the overall result, the
number of attempts actually made, and the list of backoff delays slept, in
order (`await sleep(2 ** i * 500)` after a failed attempt `i` when further
attempts remain). When the last allowed attempt fails, its error is the
`lastErr` that the JS rethrows. -/
def sendWithRetryGo {ε α : Type} (attempt : Nat → Except ε α) :
    (i : Nat) → (left : Nat) → Except ε α × Nat × List Nat
  | i, 0 => (attempt i, 1, [])
  | i, left + 1 =>
    match attempt i with
    | .ok a => (.ok a, 1, [])
    | .error _ =>
      let rest := sendWithRetryGo attempt (i + 1) left
      (rest.1, rest.2.1 + 1, (2 ^ i * 500) :: rest.2.2)

/-- `sendWithRetry` from `src/functions/index.js` lines 21-33. The JS default
`attempts = 3` is used at every call site. (For `attempts = 0` the JS loop
would run zero times and throw `undefined`; no call site does this, and the
model performs one attempt there.) -/
def sendWithRetry {ε α : Type} (attempt : Nat → Except ε α) (attempts : Nat := 3) :
    Except ε α × Nat × List Nat :=
  sendWithRetryGo attempt 1 (attempts - 1)

/-- Whether one retry-wrapped send call succeeds overall. -/
def retrySucceeds (attempt : Nat → Except String Unit) : Bool :=
  match (sendWithRetry attempt 3).1 with
  | .ok _ => true
  | .error _ => false

/- ===================== Booking store data model ===================== -/

deriving instance DecidableEq for Except

/-- One Firestore booking document. Fields written only by later handlers
(`verified`, `depositPaid`, `receiptEmailSent`) or by external setup
(`reminderSent`, `reminderAt`) are `Option`s, `none` meaning the field is
absent from the document (an absent field does not match Firestore equality
or range filters). `method` is `Option` because `createBooking` never checks
it (JS `undefined` is stored as-is). Timestamps are abstract `Nat`s. -/
structure Booking where
  style : String
  length : String
  price : Nat
  clientName : String
  clientPhone : String
  clientEmail : String
  date : String
  time : String
  method : Option String
  status : String
  paymentStatus : String
  createdAt : Nat
  verified : Option Bool := none
  depositPaid : Option ℚ := none
  receiptEmailSent : Option Bool := none
  reminderSent : Option Bool := none
  reminderAt : Option Nat := none
deriving Repr, DecidableEq

/-- The `bookings` collection: document id to document. -/
abbrev Store := List (String × Booking)

/-- Read a document by id (Firestore ids are unique; first match). -/
def getB : Store → String → Option Booking
  | [], _ => none
  | (k, b) :: rest, id => if k = id then some b else getB rest id

/-- Update the document with the given id by `f`, leaving others unchanged
(models `tx.update(bookingRef, ...)` / `doc.ref.update(...)`). -/
def updB : Store → String → (Booking → Booking) → Store
  | [], _, _ => []
  | (k, b) :: rest, id, f => if k = id then (k, f b) :: rest else (k, b) :: updB rest id f

/- ===================== Outbound messages (src/functions/index.js 35-53) ===================== -/

/-- Record of one call to `sendSms`/`sendWhatsApp` (one Twilio message with
up to 3 retried attempts inside). -/
structure SendRec where
  channel : String
  toAddr : String
  body : String
  result : Except String Unit
  attempts : Nat
deriving Repr, DecidableEq

/-- `sendSms` (lines 35-43): one retry-wrapped Twilio message from the plain
SMS sender identity to `phone`. -/
def sendSms (attempt : Nat → Except String Unit) (phone message : String) : SendRec :=
  let r := sendWithRetry attempt 3
  { channel := "sms", toAddr := phone, body := message, result := r.1, attempts := r.2.1 }

/-- `sendWhatsApp` (lines 45-53): one retry-wrapped Twilio message from the
WhatsApp sender identity, recipient prefixed with `whatsapp:`. -/
def sendWhatsApp (attempt : Nat → Except String Unit) (phone message : String) : SendRec :=
  let r := sendWithRetry attempt 3
  { channel := "whatsapp", toAddr := "whatsapp:" ++ phone, body := message, result := r.1, attempts := r.2.1 }

/-- The dispatch shape shared by the webhook handler (lines 176-178) and the
reminder sweep (lines 212-214):
`if (booking.method === "whatsapp") await sendWhatsApp(booking.clientPhone, message); else await sendSms(booking.clientPhone, message);` -/
def dispatchSend (attempt : Nat → Except String Unit) (booking : Booking)
    (message : String) : SendRec :=
  if booking.method = some "whatsapp" then sendWhatsApp attempt booking.clientPhone message
  else sendSms attempt booking.clientPhone message

/-- The confirmation template of the webhook handler (lines 171-174). -/
def confirmationMessage (b : Booking) : String :=
  "✅ Booking confirmed!\nHi " ++ b.clientName ++ ", your " ++ b.style ++ " (" ++
  b.length ++ ") appointment is confirmed.\n📅 " ++ b.date ++ "\n🕒 " ++ b.time

/-- The reminder template of the sweep (lines 206-209). -/
def reminderMessage (b : Booking) : String :=
  "⏰ Reminder\nHi " ++ b.clientName ++ ", your " ++ b.style ++ " (" ++
  b.length ++ ") appointment is in 5 hours.\n📅 " ++ b.date ++ "\n🕒 " ++ b.time

/- ===================== createBooking (src/functions/index.js 69-130) ===================== -/

/-- Request payload of `createBooking`; `none` is a JS `undefined` field. -/
structure BookingInput where
  style : Option String := none
  length : Option String := none
  price : Option Nat := none
  clientName : Option String := none
  clientPhone : Option String := none
  date : Option String := none
  time : Option String := none
  method : Option String := none
  email : Option String := none
deriving Repr, DecidableEq

/-- JS truthiness: a string field is falsy when `undefined` or empty. -/
def strBlank : Option String → Bool
  | none => true
  | some s => s = ""

/-- JS truthiness: a numeric field is falsy when `undefined` or `0`. -/
def numBlank : Option Nat → Bool
  | none => true
  | some n => n = 0

/-- The required-field check of `createBooking` (lines 86-97): every intake
field except `method` must be truthy. -/
def missingRequired (inp : BookingInput) : Bool :=
  strBlank inp.style || strBlank inp.length || numBlank inp.price ||
  strBlank inp.clientName || strBlank inp.clientPhone || strBlank inp.date ||
  strBlank inp.time || strBlank inp.email

/-- Body of the Paystack `transaction/initialize` response that the code
reads (`response.data.data.authorization_url`, line 128). -/
structure GatewayResp where
  authorization_url : String
deriving Repr, DecidableEq

/-- Final state of one `createBooking` call: the store afterwards and either
the value returned to the caller (the authorization URL) or the error thrown. -/
structure CreateOutcome where
  store : Store
  result : Except String String
deriving Repr, DecidableEq

/-- `createBooking` from `src/functions/index.js` lines 69-130. `gateway` is
the outcome of the `axios.post` to Paystack; `newId` the id Firestore assigns
to the added document; `now` the server timestamp. Validation errors thrown
while building the document abort before anything is persisted; a gateway
failure happens after the document was added and is not rolled back. -/
def createBooking (gateway : Except String GatewayResp) (newId : String) (now : Nat)
    (store : Store) (inp : BookingInput) : CreateOutcome :=
  if missingRequired inp then { store := store, result := .error "Missing required fields" }
  else
    match validatePhone (inp.clientPhone.getD "") with
    | .error e => { store := store, result := .error e }
    | .ok phone =>
      match validateEmail (inp.email.getD "") with
      | .error e => { store := store, result := .error e }
      | .ok mail =>
        let booking : Booking := {
          style := inp.style.getD "", length := inp.length.getD "",
          price := inp.price.getD 0, clientName := inp.clientName.getD "",
          clientPhone := phone, clientEmail := mail,
          date := inp.date.getD "", time := inp.time.getD "",
          method := inp.method, status := "Pending", paymentStatus := "Unpaid",
          createdAt := now }
        let store2 := store ++ [(newId, booking)]
        match gateway with
        | .error e => { store := store2, result := .error e }
        | .ok resp => { store := store2, result := .ok resp.authorization_url }

/- ===================== Paystack webhook (src/functions/index.js 133-187) ===================== -/

/-- `event.data.metadata` of a Paystack event. -/
structure EventMeta where
  bookingId : Option String := none
deriving Repr, DecidableEq

/-- `event.data` of a Paystack event (`amount` is in minor units). -/
structure EventData where
  metadata : Option EventMeta := none
  amount : Nat := 0
deriving Repr, DecidableEq

/-- The parsed webhook body: `{ event, data }`. -/
structure PEvent where
  event : String := ""
  data : Option EventData := none
deriving Repr, DecidableEq

/-- An inbound webhook HTTP request: method, the `x-paystack-signature`
header (absent / present), the raw body bytes the HMAC is computed over,
and the parsed JSON body the handler reads. -/
structure WebhookReq where
  method : String := "POST"
  sigHeader : Option String := none
  rawBody : String := ""
  body : PEvent := {}
deriving Repr, DecidableEq

/-- Final state of one webhook delivery: the HTTP status sent, the store
after the transaction, and the outbound message calls made. -/
structure WebhookOutcome where
  status : Nat
  store : Store
  sends : List SendRec
deriving Repr, DecidableEq

/-- The field update buffered by `tx.update` in the webhook transaction
(lines 163-169): `paymentStatus: "Paid", verified: true,
depositPaid: event.data.amount / 100, status: "Accepted",
receiptEmailSent: false`. -/
def paidUpdate (amount : Nat) (b : Booking) : Booking :=
  { b with
    paymentStatus := "Paid", verified := some true,
    depositPaid := some ((amount : ℚ) / 100), status := "Accepted",
    receiptEmailSent := some false }

/-- `paystackWebhook` from `src/functions/index.js` lines 133-187.
Control flow as in the source: non-POST → 405; missing/empty signature
header (JS `!req.headers[...]`) → 401; signature ≠ HMAC of the raw body →
403; non-`charge.success` events acknowledged with 200; missing/empty
`bookingId` (JS `!bookingId`) → 400. Inside `db.runTransaction`: a missing
booking or one already `Paid` makes the callback return (no write) and the
handler answer 200. Otherwise the callback buffers `paidUpdate` via
`tx.update` and then awaits the confirmation send *inside* the transaction;
Firestore commits the buffered write only if the callback finishes, so the
update is applied in the model only when the send succeeds, while a send
that exhausts its retries throws, aborts the transaction (the buffered
write is discarded) and reaches the outer catch, which answers 500. -/
def paystackWebhook (secret : String) (hmac : String → String → String)
    (attempt : Nat → Except String Unit) (store : Store) (req : WebhookReq) :
    WebhookOutcome :=
  if ¬ req.method = "POST" then { status := 405, store := store, sends := [] }
  else
    match req.sigHeader with
    | none => { status := 401, store := store, sends := [] }
    | some sig =>
      if sig = "" then { status := 401, store := store, sends := [] }
      else if ¬ hmac secret req.rawBody = sig then { status := 403, store := store, sends := [] }
      else if ¬ req.body.event = "charge.success" then { status := 200, store := store, sends := [] }
      else
        match req.body.data with
        | none => { status := 400, store := store, sends := [] }
        | some d =>
          match d.metadata.bind EventMeta.bookingId with
          | none => { status := 400, store := store, sends := [] }
          | some bid =>
            if bid = "" then { status := 400, store := store, sends := [] }
            else
              match getB store bid with
              | none => { status := 200, store := store, sends := [] }
              | some booking =>
                if booking.paymentStatus = "Paid" then
                  { status := 200, store := store, sends := [] }
                else
                  let sendRec := dispatchSend attempt booking (confirmationMessage booking)
                  match sendRec.result with
                  | .error _ => { status := 500, store := store, sends := [sendRec] }
                  | .ok _ =>
                    { status := 200, store := updB store bid (paidUpdate d.amount),
                      sends := [sendRec] }

/- ===================== Reminder sweep (src/functions/index.js 190-222) ===================== -/

/-- The sweep's Firestore query filter (lines 197-202): `status == "Accepted"`,
`reminderSent == false`, `reminderAt <= now`. A document lacking one of the
filtered fields does not match. -/
def eligibleForReminder (now : Nat) (b : Booking) : Bool :=
  (b.status == "Accepted") && (b.reminderSent == some false) &&
  (match b.reminderAt with
   | some t => decide (t ≤ now)
   | none => false)

/-- `doc.ref.update({ reminderSent: true })` (line 216). -/
def markReminderSent (b : Booking) : Booking := { b with reminderSent := some true }

/-- Final state of one sweep: the store afterwards and the message calls made. -/
structure SweepOutcome where
  store : Store
  sends : List SendRec
deriving Repr, DecidableEq

/-- The per-document loop of the sweep (lines 204-220): for each snapshot
document, send the reminder; on success mark `reminderSent: true`; a throw
from the send is caught and logged, the loop continues with the next
document. `attemptOf` gives the Twilio attempt oracle of each booking's
send call. -/
def sweepGo (attemptOf : String → Nat → Except String Unit) :
    List (String × Booking) → Store → List SendRec → SweepOutcome
  | [], store, sends => { store := store, sends := sends }
  | (id, b) :: rest, store, sends =>
    let r := dispatchSend (attemptOf id) b (reminderMessage b)
    match r.result with
    | .ok _ => sweepGo attemptOf rest (updB store id markReminderSent) (sends ++ [r])
    | .error _ => sweepGo attemptOf rest store (sends ++ [r])

/-- `sendFiveHourReminders` from `src/functions/index.js` lines 190-222:
query the eligible bookings (a fixed snapshot), then process them in order. -/
def sendFiveHourReminders (attemptOf : String → Nat → Except String Unit)
    (now : Nat) (store : Store) : SweepOutcome :=
  sweepGo attemptOf (store.filter fun e => eligibleForReminder now e.2) store []

/- ===================== Concrete sample data ===================== -/

/-- A stand-in for the opaque HMAC-SHA512 hex digest in concrete runs. -/
def hmacStub : String → String → String := fun secret body => secret ++ ":" ++ body

/-- A Twilio oracle whose every attempt succeeds. -/
def okAttempt : Nat → Except String Unit := fun _ => .ok ()

/-- A Twilio oracle whose every attempt fails (channel down). -/
def failAttempt : Nat → Except String Unit := fun _ => .error "twilio unavailable"

/-- A freshly created booking (as `createBooking` persists it). -/
def sampleBooking : Booking :=
  { style := "Box braids", length := "Medium", price := 500,
    clientName := "Thandi", clientPhone := "+27821234567",
    clientEmail := "thandi@example.com", date := "2025-11-01", time := "10:00",
    method := none, status := "Pending", paymentStatus := "Unpaid", createdAt := 0 }

/-- The same booking after the webhook transition. -/
def paidBooking : Booking := paidUpdate 15000 sampleBooking

/-- Payment event data pointing at booking `b1`. -/
def sampleData : EventData :=
  { metadata := some { bookingId := some "b1" }, amount := 15000 }

/-- A correctly signed `charge.success` delivery for booking `b1`. -/
def sampleReq : WebhookReq :=
  { method := "POST", sigHeader := some (hmacStub "sec" "raw-body-1"),
    rawBody := "raw-body-1",
    body := { event := "charge.success", data := some sampleData } }

/-- Payment event data pointing at a booking id absent from the store. -/
def ghostData : EventData :=
  { metadata := some { bookingId := some "ghost" }, amount := 15000 }

/-- A correctly signed `charge.success` delivery for the absent booking. -/
def ghostReq : WebhookReq :=
  { method := "POST", sigHeader := some (hmacStub "sec" "raw-body-2"),
    rawBody := "raw-body-2",
    body := { event := "charge.success", data := some ghostData } }

def goodInput : BookingInput :=
  { style := some "Box braids", length := some "Medium", price := some 500,
    clientName := some "Thandi", clientPhone := some "0821234567",
    date := some "2025-11-01", time := some "10:00", method := some "sms",
    email := some "thandi@example.com" }

/-- The same request with the required `email` field missing. -/
def badInput : BookingInput := { goodInput with email := none }

def remA : Booking :=
  { sampleBooking with
    status := "Accepted", paymentStatus := "Paid",
    reminderSent := some false, reminderAt := some 50 }

/-- An accepted booking due a reminder whose send will fail. -/
def remB : Booking :=
  { remA with clientName := "Busi", clientPhone := "+27831234567" }

/-- An accepted booking whose reminder was already sent. -/
def remC : Booking := { remA with reminderSent := some true }

/-- A per-booking Twilio oracle: booking `ra` sends fine, the rest are down. -/
def sweepAttempt : String → Nat → Except String Unit :=
  fun id _ => if id = "ra" then .ok () else .error "twilio unavailable"

/-- The store swept in the C8 witness. -/
def sweepStore : Store := [("ra", remA), ("rb", remB), ("rc", remC)]

/- ===================== Theorems ===================== -/

/- ===================== Validator lemmas ===================== -/

theorem digitsOf_all (l : List Char) : (digitsOf l).all Char.isDigit = true := by
  simp only [digitsOf, List.all_eq_true]
  intro c hc
  exact (List.mem_filter.mp hc).2

theorem trunkReplace_all (l : List Char) (h : l.all Char.isDigit = true) :
    (trunkReplace l).all Char.isDigit = true := by
  unfold trunkReplace
  by_cases h0 : l.head? = some '0'
  · rw [if_pos h0]
    cases l with
    | nil => simp at h0
    | cons c t =>
      simp only [List.all_cons, Bool.and_eq_true] at h
      simp only [List.tail_cons, List.all_cons, Bool.and_eq_true]
      exact ⟨by decide, by decide, h.2⟩
  · rw [if_neg h0]; exact h

theorem trunkReplace_head (l : List Char) : ¬ (trunkReplace l).head? = some '0' := by
  unfold trunkReplace
  by_cases h0 : l.head? = some '0'
  · simp [h0]
  · simp [h0]

theorem trunkReplace_idem (l : List Char) :
    trunkReplace (trunkReplace l) = trunkReplace l := by
  rw [trunkReplace, if_neg (trunkReplace_head l)]

theorem phoneShapeOk_iff (l : List Char) (h : l.all Char.isDigit = true) :
    phoneShapeOk l = true ↔ (11 ≤ l.length ∧ l.length ≤ 15) := by
  simp [phoneShapeOk, h, Bool.and_eq_true, decide_eq_true_eq]

theorem phoneShape_ite (l : List Char) (hal : l.all Char.isDigit = true)
    (A B : Except String String) :
    (if phoneShapeOk l then A else B) =
    (if 11 ≤ l.length ∧ l.length ≤ 15 then A else B) := by
  by_cases hp : 11 ≤ l.length ∧ l.length ≤ 15
  · rw [if_pos ((phoneShapeOk_iff l hal).mpr hp), if_pos hp]
  · rw [if_neg (fun hc => hp ((phoneShapeOk_iff l hal).mp hc)), if_neg hp]

theorem specTrunk_eq_trunkReplace (l : List Char) : specTrunk l = trunkReplace l := by
  cases l with
  | nil => rfl
  | cons c t =>
    by_cases hc : c = '0'
    · subst hc
      rw [trunkReplace, if_pos (show ('0' :: t).head? = some '0' from rfl)]
      rfl
    · rw [trunkReplace, if_neg (by simp [hc])]
      unfold specTrunk
      split
      · next heq =>
        injection heq with h1 h2
        exact absurd h1 hc
      · rfl

theorem validatePhone_eq_specNormalize (s : String) :
    validatePhone s = specNormalizePhone s := by
  unfold validatePhone specNormalizePhone digitsOf
  dsimp only
  rw [specTrunk_eq_trunkReplace]
  exact phoneShape_ite _ (trunkReplace_all _ (digitsOf_all s.data)) _ _

/-- C7: phone normalization strips non-digits, rewrites a leading `0` to
`27`, requires 11-15 digits, and prepends `+` (stated as agreement of the
code's `validatePhone` with the normalization described by the spec), with
the spec's concrete examples, and failure of every all-digit input of
length 5. -/
theorem validatePhone_spec :
    (∀ s, validatePhone s = specNormalizePhone s) ∧
    validatePhone "0821234567" = .ok "+27821234567" ∧
    validatePhone "+27821234567" = .ok "+27821234567" ∧
    (∀ s, s.data.all Char.isDigit = true → s.data.length = 5 →
      validatePhone s = .error "Invalid phone number") := by
  refine ⟨validatePhone_eq_specNormalize, by rfl, by rfl, ?_⟩
  intro s hall hlen
  unfold validatePhone
  have hds : digitsOf s.data = s.data := by
    simp only [digitsOf]
    exact List.filter_eq_self.mpr (by simpa [List.all_eq_true] using hall)
  rw [hds]
  have hlp : (trunkReplace s.data).length ≤ 6 := by
    rw [trunkReplace]
    by_cases h0 : s.data.head? = some '0'
    · rw [if_pos h0]
      have : s.data.tail.length ≤ 4 := by
        cases hd : s.data with
        | nil => simp
        | cons c t => rw [hd] at hlen; simp at hlen ⊢; omega
      simp only [List.length_cons]
      omega
    · rw [if_neg h0]; omega
  have hfalse : ¬ (phoneShapeOk (trunkReplace s.data) = true) := by
    intro hc
    simp only [phoneShapeOk, Bool.and_eq_true, decide_eq_true_eq] at hc
    obtain ⟨⟨-, h11⟩, -⟩ := hc
    omega
  rw [if_neg hfalse]

/-- C7 witness: the theorem applied at concrete inputs. -/
theorem validatePhone_spec_witness :
    validatePhone "082 123 4567" = specNormalizePhone "082 123 4567" ∧
    validatePhone "12345" = .error "Invalid phone number" :=
  ⟨validatePhone_spec.1 "082 123 4567",
   validatePhone_spec.2.2.2 "12345" (by rfl) (by rfl)⟩

/-- C9: `validatePhone` is idempotent: whenever it succeeds with result `r`,
running it again on `r` succeeds and returns `r` unchanged. -/
theorem validatePhone_idempotent (s r : String) (h : validatePhone s = .ok r) :
    validatePhone r = .ok r := by
  unfold validatePhone at h
  set p := trunkReplace (digitsOf s.data) with hp
  by_cases hok : phoneShapeOk p = true
  · rw [if_pos hok] at h
    injection h with h'
    subst h'
    have hall : p.all Char.isDigit = true := by
      simp only [phoneShapeOk, Bool.and_eq_true] at hok
      exact hok.1.1
    have hdata : ("+" ++ String.mk p).data = '+' :: p := rfl
    unfold validatePhone
    rw [hdata]
    have hdig : digitsOf ('+' :: p) = p := by
      have hplus : Char.isDigit '+' = false := by decide
      simp only [digitsOf, List.filter_cons, hplus, Bool.false_eq_true, if_false]
      exact List.filter_eq_self.mpr (by simpa [List.all_eq_true] using hall)
    rw [hdig]
    have hidem : trunkReplace p = p := by
      rw [hp]; exact trunkReplace_idem _
    rw [hidem, if_pos hok]
  · rw [if_neg hok] at h
    simp at h

/-- C9 witness: the idempotence theorem applied at a concrete input. -/
theorem validatePhone_idempotent_witness :
    validatePhone "+27821234567" = .ok "+27821234567" :=
  validatePhone_idempotent "0821234567" "+27821234567" (by rfl)

/-- C4: the retry policy of the Notifier: at most 3 attempts; success on
attempt `i` returns immediately after exactly `i` attempts; after attempt 1
fails the loop sleeps `500 * 2 ^ 1 = 1000` ms, after attempt 2 fails it sleeps
`500 * 2 ^ 2 = 2000` ms; and if every attempt fails the overall result is the
error of the third (last) attempt, surfaced to the caller. -/
theorem sendWithRetry_policy {ε α : Type} (attempt : Nat → Except ε α) :
    sendWithRetry attempt 3 =
      match attempt 1 with
      | .ok a => (.ok a, 1, ([] : List Nat))
      | .error _ =>
        match attempt 2 with
        | .ok a => (.ok a, 2, [1000])
        | .error _ => (attempt 3, 3, [1000, 2000]) := by
  unfold sendWithRetry
  show sendWithRetryGo attempt 1 2 = _
  rcases h1 : attempt 1 with e1 | a1
  · rcases h2 : attempt 2 with e2 | a2
    · rcases h3 : attempt 3 with e3 | a3
      · simp [sendWithRetryGo, h1, h2, h3]
      · simp [sendWithRetryGo, h1, h2, h3]
    · simp [sendWithRetryGo, h1, h2]
  · simp [sendWithRetryGo, h1]

/- ===================== Store lemmas ===================== -/

theorem getB_updB_self (store : Store) (id : String) (f : Booking → Booking) :
    getB (updB store id f) id = (getB store id).map f := by
  induction store with
  | nil => rfl
  | cons e rest ih =>
    obtain ⟨k, b⟩ := e
    by_cases hk : k = id
    · simp [updB, getB, hk]
    · simp [updB, getB, hk, ih]

theorem getB_updB_ne (store : Store) (id idx : String) (f : Booking → Booking)
    (h : ¬ idx = id) :
    getB (updB store id f) idx = getB store idx := by
  induction store with
  | nil => rfl
  | cons e rest ih =>
    obtain ⟨k, b⟩ := e
    by_cases hk : k = id
    · subst hk
      have hki : ¬ k = idx := fun hc => h hc.symm
      simp [updB, getB, hki]
    · simp [updB, getB, hk, ih]

theorem getB_mem (store : Store) (id : String) (b : Booking)
    (h : getB store id = some b) : (id, b) ∈ store := by
  induction store with
  | nil => simp [getB] at h
  | cons e rest ih =>
    obtain ⟨k, c⟩ := e
    by_cases hk : k = id
    · subst hk
      simp [getB] at h
      subst h
      exact List.mem_cons_self _ _
    · simp only [getB, if_neg hk] at h
      exact List.mem_cons_of_mem _ (ih h)

theorem mem_getB (store : Store) (id : String) (b : Booking)
    (hnd : (store.map Prod.fst).Nodup) (h : (id, b) ∈ store) :
    getB store id = some b := by
  induction store with
  | nil => simp at h
  | cons e rest ih =>
    obtain ⟨k, c⟩ := e
    simp only [List.map_cons, List.nodup_cons] at hnd
    rcases List.mem_cons.mp h with heq | hmem
    · injection heq with h1 h2
      subst h1
      subst h2
      simp [getB]
    · have hk : ¬ k = id := by
        intro hc
        subst hc
        exact hnd.1 (List.mem_map.mpr ⟨(k, b), hmem, rfl⟩)
      simp only [getB, if_neg hk]
      exact ih hnd.2 hmem

/- ===================== Send dispatch lemmas ===================== -/

theorem dispatchSend_result (attempt : Nat → Except String Unit) (b : Booking)
    (msg : String) :
    (dispatchSend attempt b msg).result = (sendWithRetry attempt 3).1 := by
  unfold dispatchSend sendSms sendWhatsApp
  by_cases h : b.method = some "whatsapp" <;> simp [h]

theorem retrySucceeds_ok (attempt : Nat → Except String Unit)
    (h : retrySucceeds attempt = true) :
    ∃ u, (sendWithRetry attempt 3).1 = .ok u := by
  unfold retrySucceeds at h
  rcases hr : (sendWithRetry attempt 3).1 with e | u
  · rw [hr] at h; simp at h
  · exact ⟨u, rfl⟩

/- ===================== Webhook reduction lemma ===================== -/

/-- For a well-formed, correctly signed `charge.success` delivery, the
handler reduces to its transaction body. -/
theorem paystackWebhook_tx (secret : String) (hmac : String → String → String)
    (attempt : Nat → Except String Unit) (store : Store) (req : WebhookReq)
    (d : EventData) (bid : String)
    (hpost : req.method = "POST")
    (hsig : req.sigHeader = some (hmac secret req.rawBody))
    (hsne : ¬ hmac secret req.rawBody = "")
    (hev : req.body.event = "charge.success")
    (hdata : req.body.data = some d)
    (hbid : d.metadata.bind EventMeta.bookingId = some bid)
    (hne : ¬ bid = "") :
    paystackWebhook secret hmac attempt store req =
      (match getB store bid with
       | none => { status := 200, store := store, sends := [] }
       | some booking =>
         if booking.paymentStatus = "Paid" then
           { status := 200, store := store, sends := [] }
         else
           let sendRec := dispatchSend attempt booking (confirmationMessage booking)
           match sendRec.result with
           | .error _ => { status := 500, store := store, sends := [sendRec] }
           | .ok _ =>
             { status := 200, store := updB store bid (paidUpdate d.amount),
               sends := [sendRec] }) := by
  unfold paystackWebhook
  rw [hsig]
  simp [hpost, hev, hdata, hbid, hsne, hne]

/-- C3: a webhook request whose supplied signature header does not equal the
digest of the raw body is rejected with an HTTP error status (401/403/405),
with the store unchanged and no outbound message. -/
theorem paystackWebhook_rejects_bad_signature (secret : String)
    (hmac : String → String → String) (attempt : Nat → Except String Unit)
    (store : Store) (req : WebhookReq)
    (hbad : ∀ sig, req.sigHeader = some sig → ¬ sig = hmac secret req.rawBody) :
    400 ≤ (paystackWebhook secret hmac attempt store req).status ∧
    (paystackWebhook secret hmac attempt store req).store = store ∧
    (paystackWebhook secret hmac attempt store req).sends = [] := by
  unfold paystackWebhook
  by_cases hm : req.method = "POST"
  · rcases hh : req.sigHeader with - | sig
    · simp [hm]
    · have hs := hbad sig hh
      by_cases hemp : sig = ""
      · simp [hm, hemp]
      · have : ¬ hmac secret req.rawBody = sig := fun hc => hs hc.symm
        simp [hm, hemp, this]
  · simp [hm]

/-- C3 witness: a concrete delivery with a wrong signature is rejected with
no state change and no message. -/
theorem paystackWebhook_rejects_bad_signature_witness :
    400 ≤ (paystackWebhook "sec" (fun s b => s ++ ":" ++ b) (fun _ => .ok ())
      [] { sigHeader := some "wrong", rawBody := "payload" }).status ∧
    (paystackWebhook "sec" (fun s b => s ++ ":" ++ b) (fun _ => .ok ())
      [] { sigHeader := some "wrong", rawBody := "payload" }).store = [] ∧
    (paystackWebhook "sec" (fun s b => s ++ ":" ++ b) (fun _ => .ok ())
      [] { sigHeader := some "wrong", rawBody := "payload" }).sends = [] := by
  refine paystackWebhook_rejects_bad_signature _ _ _ _ _ ?_
  intro sig hsig
  injection hsig with h
  subst h
  decide

/- ===================== C1 / C2 / C6 ===================== -/

/-- C1: for a correctly signed `charge.success` delivery for an Unpaid
booking whose confirmation send succeeds, the first delivery answers 200,
makes exactly one notification send and commits the Paid/Accepted
transition; delivering the identical event a second time is a no-op that
still answers 200, sends nothing, and leaves the store unchanged — so two
identical deliveries cause exactly one state transition and exactly one
notification send, and the booking is Paid/Accepted after either delivery. -/
theorem paystackWebhook_idempotent (secret : String) (hmac : String → String → String)
    (attempt : Nat → Except String Unit) (store : Store) (req : WebhookReq)
    (d : EventData) (bid : String) (b : Booking)
    (hpost : req.method = "POST")
    (hsig : req.sigHeader = some (hmac secret req.rawBody))
    (hsne : ¬ hmac secret req.rawBody = "")
    (hev : req.body.event = "charge.success")
    (hdata : req.body.data = some d)
    (hbid : d.metadata.bind EventMeta.bookingId = some bid)
    (hne : ¬ bid = "")
    (hb : getB store bid = some b)
    (hunpaid : b.paymentStatus = "Unpaid")
    (hokk : retrySucceeds attempt = true) :
    (paystackWebhook secret hmac attempt store req).status = 200 ∧
    (paystackWebhook secret hmac attempt store req).sends.length = 1 ∧
    getB (paystackWebhook secret hmac attempt store req).store bid =
      some (paidUpdate d.amount b) ∧
    (paidUpdate d.amount b).paymentStatus = "Paid" ∧
    (paidUpdate d.amount b).status = "Accepted" ∧
    paystackWebhook secret hmac attempt
        (paystackWebhook secret hmac attempt store req).store req =
      { status := 200,
        store := (paystackWebhook secret hmac attempt store req).store,
        sends := [] } := by
  obtain ⟨u, hu⟩ := retrySucceeds_ok attempt hokk
  have hnp : ¬ b.paymentStatus = "Paid" := by rw [hunpaid]; decide
  have h1 : paystackWebhook secret hmac attempt store req =
      { status := 200, store := updB store bid (paidUpdate d.amount),
        sends := [dispatchSend attempt b (confirmationMessage b)] } := by
    rw [paystackWebhook_tx secret hmac attempt store req d bid hpost hsig hsne hev
      hdata hbid hne, hb]
    simp [hnp, dispatchSend_result, hu]
  have h2 : getB (updB store bid (paidUpdate d.amount)) bid =
      some (paidUpdate d.amount b) := by
    rw [getB_updB_self, hb]
    rfl
  have h3 : paystackWebhook secret hmac attempt
      (updB store bid (paidUpdate d.amount)) req =
      { status := 200, store := updB store bid (paidUpdate d.amount), sends := [] } := by
    rw [paystackWebhook_tx secret hmac attempt _ req d bid hpost hsig hsne hev
      hdata hbid hne, h2]
    simp [paidUpdate]
  refine ⟨by rw [h1], by rw [h1]; rfl, ?_, by simp [paidUpdate], by simp [paidUpdate], ?_⟩
  · rw [h1]
    exact h2
  · rw [h1]
    exact h3

/-- C1 witness: the idempotency theorem applied to a concrete store and
delivery. -/
theorem paystackWebhook_idempotent_witness :
    (paystackWebhook "sec" hmacStub okAttempt [("b1", sampleBooking)] sampleReq).status = 200 ∧
    (paystackWebhook "sec" hmacStub okAttempt [("b1", sampleBooking)] sampleReq).sends.length = 1 ∧
    paystackWebhook "sec" hmacStub okAttempt
        (paystackWebhook "sec" hmacStub okAttempt [("b1", sampleBooking)] sampleReq).store sampleReq =
      { status := 200,
        store := (paystackWebhook "sec" hmacStub okAttempt [("b1", sampleBooking)] sampleReq).store,
        sends := [] } :=
  have h := paystackWebhook_idempotent "sec" hmacStub okAttempt
    [("b1", sampleBooking)] sampleReq sampleData "b1" sampleBooking
    rfl rfl (by decide) rfl rfl rfl (by decide) rfl rfl rfl
  ⟨h.1, h.2.1, h.2.2.2.2.2⟩

/-- C2 (documents the code bug): a correctly signed `charge.success`
delivery for an Unpaid booking whose confirmation channel is down results
in one exhausted send call (3 failed attempts) made inside the transaction,
the transaction aborted — the booking is still Unpaid/Pending afterwards —
and an HTTP 500; the claimed behaviour (send only after commit, notifier
failure never rolls back the committed Paid state) does not hold. -/
theorem paystackWebhook_send_inside_transaction :
    paystackWebhook "sec" hmacStub failAttempt [("b1", sampleBooking)] sampleReq =
      { status := 500, store := [("b1", sampleBooking)],
        sends := [dispatchSend failAttempt sampleBooking (confirmationMessage sampleBooking)] } ∧
    (dispatchSend failAttempt sampleBooking (confirmationMessage sampleBooking)).attempts = 3 ∧
    (dispatchSend failAttempt sampleBooking (confirmationMessage sampleBooking)).result =
      .error "twilio unavailable" ∧
    sampleBooking.paymentStatus = "Unpaid" ∧
    sampleBooking.status = "Pending" :=
  ⟨rfl, rfl, rfl, rfl, rfl⟩

/-- C6 counterexample: a correctly signed `charge.success` delivery whose
`bookingId` is absent from the store answers success 200 with no state
change and no notification — not a `BookingNotFound` error response. -/
theorem paystackWebhook_absent_not_error :
    paystackWebhook "sec" hmacStub okAttempt [] ghostReq =
      { status := 200, store := [], sends := [] } ∧
    ¬ 400 ≤ (paystackWebhook "sec" hmacStub okAttempt [] ghostReq).status :=
  ⟨rfl, by decide⟩

/-- C6 (amended): within the webhook transaction, a booking absent from the
store is treated exactly like an already-Paid one: the handler no-ops and
answers success 200 (it does not fail with BookingNotFound); an existing
already-Paid booking no-ops with success and no re-notification; otherwise,
when the confirmation send succeeds, the booking is updated with
paymentStatus=Paid, verified=true, depositPaid=event amount divided by 100,
status=Accepted and receiptEmailSent=false. -/
theorem paystackWebhook_transaction_cases (secret : String)
    (hmac : String → String → String) (attempt : Nat → Except String Unit)
    (store : Store) (req : WebhookReq) (d : EventData) (bid : String)
    (hpost : req.method = "POST")
    (hsig : req.sigHeader = some (hmac secret req.rawBody))
    (hsne : ¬ hmac secret req.rawBody = "")
    (hev : req.body.event = "charge.success")
    (hdata : req.body.data = some d)
    (hbid : d.metadata.bind EventMeta.bookingId = some bid)
    (hne : ¬ bid = "") :
    (getB store bid = none →
      paystackWebhook secret hmac attempt store req =
        { status := 200, store := store, sends := [] }) ∧
    (∀ b, getB store bid = some b → b.paymentStatus = "Paid" →
      paystackWebhook secret hmac attempt store req =
        { status := 200, store := store, sends := [] }) ∧
    (∀ b, getB store bid = some b → ¬ b.paymentStatus = "Paid" →
      retrySucceeds attempt = true →
      paystackWebhook secret hmac attempt store req =
        { status := 200, store := updB store bid (paidUpdate d.amount),
          sends := [dispatchSend attempt b (confirmationMessage b)] }) := by
  rw [paystackWebhook_tx secret hmac attempt store req d bid hpost hsig hsne hev
    hdata hbid hne]
  refine ⟨?_, ?_, ?_⟩
  · intro h0
    rw [h0]
  · intro b hb hp
    rw [hb]
    simp [hp]
  · intro b hb hp hok
    obtain ⟨u, hu⟩ := retrySucceeds_ok attempt hok
    rw [hb]
    simp [hp, dispatchSend_result, hu]

/-- C6 witness: the three transaction cases at concrete inputs. -/
theorem paystackWebhook_transaction_cases_witness :
    paystackWebhook "sec" hmacStub okAttempt [] ghostReq =
      { status := 200, store := [], sends := [] } ∧
    paystackWebhook "sec" hmacStub okAttempt [("b1", paidBooking)] sampleReq =
      { status := 200, store := [("b1", paidBooking)], sends := [] } ∧
    paystackWebhook "sec" hmacStub okAttempt [("b1", sampleBooking)] sampleReq =
      { status := 200, store := updB [("b1", sampleBooking)] "b1" (paidUpdate 15000),
        sends := [dispatchSend okAttempt sampleBooking (confirmationMessage sampleBooking)] } :=
  ⟨(paystackWebhook_transaction_cases "sec" hmacStub okAttempt [] ghostReq
      ghostData "ghost" rfl rfl (by decide) rfl rfl rfl (by decide)).1 rfl,
   (paystackWebhook_transaction_cases "sec" hmacStub okAttempt [("b1", paidBooking)]
      sampleReq sampleData "b1" rfl rfl (by decide) rfl rfl rfl (by decide)).2.1
      paidBooking rfl rfl,
   (paystackWebhook_transaction_cases "sec" hmacStub okAttempt [("b1", sampleBooking)]
      sampleReq sampleData "b1" rfl rfl (by decide) rfl rfl rfl (by decide)).2.2
      sampleBooking rfl (by decide) rfl⟩

/- ===================== C5 / C10 ===================== -/

/-- The value returned (or error thrown) by `createBooking` depends only on
the required-field check, the two validators, and the gateway response. -/
theorem createBooking_result (gw : Except String GatewayResp) (newId : String)
    (now : Nat) (store : Store) (inp : BookingInput) :
    (createBooking gw newId now store inp).result =
      (if missingRequired inp then .error "Missing required fields"
       else match validatePhone (inp.clientPhone.getD "") with
       | .error e => .error e
       | .ok _ =>
         match validateEmail (inp.email.getD "") with
         | .error e => .error e
         | .ok _ =>
           match gw with
           | .error e => .error e
           | .ok resp => .ok resp.authorization_url) := by
  unfold createBooking
  by_cases hm : missingRequired inp = true
  · simp [hm]
  · simp only [Bool.not_eq_true] at hm
    simp only [hm, Bool.false_eq_true, if_false]
    rcases hp : validatePhone (inp.clientPhone.getD "") with e | ph
    · simp [hp]
    · rcases he : validateEmail (inp.email.getD "") with e2 | ml
      · simp [hp, he]
      · rcases gw with e3 | resp
        · simp [hp, he]
        · simp [hp, he]

/-- C5: with every required field present, a valid phone and email and a
gateway response, `createBooking` appends exactly one new booking with
status=Pending, paymentStatus=Unpaid, the normalized phone and validated
email, and returns the gateway's `authorization_url`; with any required
field missing it throws `Missing required fields` before persisting
anything. -/
theorem createBooking_spec (gw : Except String GatewayResp) (newId : String)
    (now : Nat) (store : Store) (inp : BookingInput) :
    (missingRequired inp = true →
      createBooking gw newId now store inp =
        { store := store, result := .error "Missing required fields" }) ∧
    (∀ url phone mail, missingRequired inp = false →
      validatePhone (inp.clientPhone.getD "") = .ok phone →
      validateEmail (inp.email.getD "") = .ok mail →
      gw = .ok { authorization_url := url } →
      createBooking gw newId now store inp =
        { store := store ++ [(newId,
            { style := inp.style.getD "", length := inp.length.getD "",
              price := inp.price.getD 0, clientName := inp.clientName.getD "",
              clientPhone := phone, clientEmail := mail,
              date := inp.date.getD "", time := inp.time.getD "",
              method := inp.method, status := "Pending",
              paymentStatus := "Unpaid", createdAt := now })],
          result := .ok url }) := by
  constructor
  · intro hm
    unfold createBooking
    rw [if_pos hm]
  · intro url phone mail hm hp he hg
    unfold createBooking
    simp [hm, hp, he, hg]

/-- C5 witness: the theorem at a complete input and at one missing a
required field. -/
theorem createBooking_spec_witness :
    createBooking (.ok { authorization_url := "pay.example/abc" }) "b9" 7 [] goodInput =
      { store := [("b9",
          { style := "Box braids", length := "Medium", price := 500,
            clientName := "Thandi", clientPhone := "+27821234567",
            clientEmail := "thandi@example.com", date := "2025-11-01",
            time := "10:00", method := some "sms", status := "Pending",
            paymentStatus := "Unpaid", createdAt := 7 })],
        result := .ok "pay.example/abc" } ∧
    createBooking (.ok { authorization_url := "pay.example/abc" }) "b9" 7 [] badInput =
      { store := [], result := .error "Missing required fields" } :=
  ⟨(createBooking_spec (.ok { authorization_url := "pay.example/abc" }) "b9" 7 []
      goodInput).2 "pay.example/abc" "+27821234567" "thandi@example.com"
      rfl (by rfl) (by rfl) rfl,
   (createBooking_spec (.ok { authorization_url := "pay.example/abc" }) "b9" 7 []
      badInput).1 rfl⟩

/-- C10: the notification method is never required or validated: the value
returned or error thrown by `createBooking` is identical for any two values
of the `method` field (in particular an absent one), and every later send —
the shape shared by the webhook confirmation and the reminder — goes
through plain SMS to the booking's phone for every method other than
exactly "whatsapp", and through the WhatsApp channel only for exactly
"whatsapp". -/
theorem method_not_validated :
    (∀ (gw : Except String GatewayResp) (newId : String) (now : Nat)
      (store : Store) (inp : BookingInput) (m1 m2 : Option String),
      (createBooking gw newId now store { inp with method := m1 }).result =
      (createBooking gw newId now store { inp with method := m2 }).result) ∧
    (∀ attempt (b : Booking) (msg : String), ¬ b.method = some "whatsapp" →
      (dispatchSend attempt b msg).channel = "sms" ∧
      (dispatchSend attempt b msg).toAddr = b.clientPhone) ∧
    (∀ attempt (b : Booking) (msg : String), b.method = some "whatsapp" →
      (dispatchSend attempt b msg).channel = "whatsapp") := by
  refine ⟨?_, ?_, ?_⟩
  · intro gw newId now store inp m1 m2
    rw [createBooking_result, createBooking_result]
    exact rfl
  · intro attempt b msg h
    unfold dispatchSend sendSms
    rw [if_neg h]
    exact ⟨rfl, rfl⟩
  · intro attempt b msg h
    unfold dispatchSend sendWhatsApp
    rw [if_pos h]

/-- C10 witness: an absent method and an arbitrary string agree, and the
dispatch channels at concrete bookings. -/
theorem method_not_validated_witness :
    (createBooking (.ok { authorization_url := "u" }) "b9" 7 []
        { goodInput with method := none }).result =
      (createBooking (.ok { authorization_url := "u" }) "b9" 7 []
        { goodInput with method := some "pigeon" }).result ∧
    (dispatchSend okAttempt sampleBooking "m").channel = "sms" ∧
    (dispatchSend okAttempt { sampleBooking with method := some "whatsapp" } "m").channel
      = "whatsapp" :=
  ⟨method_not_validated.1 (.ok { authorization_url := "u" }) "b9" 7 [] goodInput
      none (some "pigeon"),
   (method_not_validated.2.1 okAttempt sampleBooking "m" (by decide)).1,
   method_not_validated.2.2 okAttempt { sampleBooking with method := some "whatsapp" }
      "m" rfl⟩

/- ===================== C8: reminder sweep ===================== -/

theorem sweepGo_sends (attemptOf : String → Nat → Except String Unit)
    (docs : List (String × Booking)) (store : Store) (sends : List SendRec) :
    (sweepGo attemptOf docs store sends).sends =
      sends ++ docs.map (fun e => dispatchSend (attemptOf e.1) e.2 (reminderMessage e.2)) := by
  induction docs generalizing store sends with
  | nil => simp [sweepGo]
  | cons e rest ih =>
    obtain ⟨id, b⟩ := e
    unfold sweepGo
    dsimp only
    rcases hr : (dispatchSend (attemptOf id) b (reminderMessage b)).result with er | u
    · simp only [hr]
      rw [ih]
      simp
    · simp only [hr]
      rw [ih]
      simp

theorem sweepGo_getB_notmem (attemptOf : String → Nat → Except String Unit)
    (docs : List (String × Booking)) (store : Store) (sends : List SendRec)
    (id : String) (h : ¬ id ∈ docs.map Prod.fst) :
    getB (sweepGo attemptOf docs store sends).store id = getB store id := by
  induction docs generalizing store sends with
  | nil => rfl
  | cons e rest ih =>
    obtain ⟨k, b⟩ := e
    simp only [List.map_cons, List.mem_cons, not_or] at h
    unfold sweepGo
    dsimp only
    rcases hr : (dispatchSend (attemptOf k) b (reminderMessage b)).result with er | u
    · simp only [hr]
      exact ih _ _ h.2
    · simp only [hr]
      rw [ih _ _ h.2]
      exact getB_updB_ne store k id markReminderSent h.1

theorem sweepGo_getB_mem (attemptOf : String → Nat → Except String Unit)
    (docs : List (String × Booking)) (store : Store) (sends : List SendRec)
    (id : String) (b : Booking)
    (hnd : (docs.map Prod.fst).Nodup) (hmem : (id, b) ∈ docs) :
    getB (sweepGo attemptOf docs store sends).store id =
      (if retrySucceeds (attemptOf id) then (getB store id).map markReminderSent
       else getB store id) := by
  induction docs generalizing store sends with
  | nil => simp at hmem
  | cons e rest ih =>
    obtain ⟨k, c⟩ := e
    simp only [List.map_cons, List.nodup_cons] at hnd
    unfold sweepGo
    dsimp only
    rcases List.mem_cons.mp hmem with heq | hmem2
    · injection heq with h1 h2
      subst h1
      subst h2
      rcases hr : (dispatchSend (attemptOf id) b (reminderMessage b)).result with er | u
      · have hfail : retrySucceeds (attemptOf id) = false := by
          unfold retrySucceeds
          rw [← dispatchSend_result (attemptOf id) b (reminderMessage b), hr]
        simp only [hr]
        rw [sweepGo_getB_notmem _ _ _ _ _ hnd.1, hfail]
        simp
      · have hok : retrySucceeds (attemptOf id) = true := by
          unfold retrySucceeds
          rw [← dispatchSend_result (attemptOf id) b (reminderMessage b), hr]
        simp only [hr]
        rw [sweepGo_getB_notmem _ _ _ _ _ hnd.1, hok]
        simp [getB_updB_self]
    · have hkid : ¬ id = k := by
        intro hcc
        subst hcc
        exact hnd.1 (List.mem_map.mpr ⟨(id, b), hmem2, rfl⟩)
      rcases hr : (dispatchSend (attemptOf k) c (reminderMessage c)).result with er | u
      · simp only [hr]
        exact ih _ _ hnd.2 hmem2
      · simp only [hr]
        rw [ih _ _ hnd.2 hmem2, getB_updB_ne store k id markReminderSent hkid]

/-- C8: a sweep sends one reminder for exactly the bookings matching
status=Accepted, reminderSent=false, reminderAt ≤ now; a matched booking
whose send succeeds ends with reminderSent=true (and is no longer eligible
for any later sweep), a matched booking whose send fails is left unchanged
(still eligible), every other booking is untouched, and the sweep always
processes the whole batch — no single failure aborts it. -/
theorem sendFiveHourReminders_spec (attemptOf : String → Nat → Except String Unit)
    (now : Nat) (store : Store) (hnd : (store.map Prod.fst).Nodup) :
    (sendFiveHourReminders attemptOf now store).sends =
      (store.filter fun e => eligibleForReminder now e.2).map
        (fun e => dispatchSend (attemptOf e.1) e.2 (reminderMessage e.2)) ∧
    (∀ id b, getB store id = some b →
      getB (sendFiveHourReminders attemptOf now store).store id =
        some (if eligibleForReminder now b && retrySucceeds (attemptOf id)
              then markReminderSent b else b)) ∧
    (∀ b, eligibleForReminder now (markReminderSent b) = false) := by
  refine ⟨?_, ?_, ?_⟩
  · unfold sendFiveHourReminders
    rw [sweepGo_sends]
    simp
  · intro id b hb
    unfold sendFiveHourReminders
    by_cases hel : eligibleForReminder now b = true
    · have hmem : (id, b) ∈ store.filter (fun e => eligibleForReminder now e.2) :=
        List.mem_filter.mpr ⟨getB_mem store id b hb, hel⟩
      have hndf : ((store.filter fun e => eligibleForReminder now e.2).map Prod.fst).Nodup :=
        List.Nodup.sublist ((List.filter_sublist store).map Prod.fst) hnd
      rw [sweepGo_getB_mem _ _ _ _ _ _ hndf hmem]
      by_cases hs : retrySucceeds (attemptOf id) = true
      · rw [hs, if_pos rfl, hb]
        simp [hel]
      · simp only [Bool.not_eq_true] at hs
        rw [hs, hb]
        simp [hel, hs]
    · simp only [Bool.not_eq_true] at hel
      have hnotin : ¬ id ∈ (store.filter fun e => eligibleForReminder now e.2).map Prod.fst := by
        intro hc
        obtain ⟨⟨id2, c⟩, hc1, hc2⟩ := List.mem_map.mp hc
        dsimp at hc2
        subst hc2
        have hcs := List.mem_filter.mp hc1
        have hgc : getB store id2 = some c := mem_getB store id2 c hnd hcs.1
        rw [hb] at hgc
        injection hgc with hbc
        subst hbc
        rw [hel] at hcs
        exact Bool.false_ne_true hcs.2
      rw [sweepGo_getB_notmem _ _ _ _ _ hnotin, hb]
      simp [hel]
  · intro b
    simp [eligibleForReminder, markReminderSent]

/-- C8 witness: the sweep theorem at a concrete store holding a succeeding
eligible booking, a failing eligible booking and an ineligible one. -/
theorem sendFiveHourReminders_spec_witness :
    getB (sendFiveHourReminders sweepAttempt 100 sweepStore).store "ra" =
      some (markReminderSent remA) ∧
    getB (sendFiveHourReminders sweepAttempt 100 sweepStore).store "rb" = some remB ∧
    getB (sendFiveHourReminders sweepAttempt 100 sweepStore).store "rc" = some remC ∧
    eligibleForReminder 100 remB = true :=
  have h := (sendFiveHourReminders_spec sweepAttempt 100 sweepStore (by decide)).2.1
  ⟨(h "ra" remA rfl).trans (by rfl),
   (h "rb" remB rfl).trans (by rfl),
   (h "rc" remC rfl).trans (by rfl),
   by rfl⟩

end Mumsy
